import Mathlib

/-!
Shallow embedding of the runway-assignment core of this repository
(`src/geom.py`, plus the duplicated confidence classifier from
`src/testapi.py`), together with proofs about the spec's claims.

Modelling conventions:
* Python floats are modelled as real numbers `ℝ`.
* Python's `%` with a positive divisor is `fmod a b = a - b * ⌊a / b⌋`
  (the result has the sign of the divisor, as in Python).
* A Python `ScoreParams` dict is a record of `Option` fields; a subscript
  access `params["k"]` is a fallible lookup (a missing key raises
  `KeyError` in Python, so functions performing such lookups return
  `Option`, `none` modelling the raised exception); `params.get("k", v)`
  is `Option.getD`.
* The Python dict keyed by runway id that `assign_runway_for_aircraft`
  builds is an association list with overwrite-in-place insertion
  (`dictInsert`), matching insertion-ordered dict semantics.
* `math.isclose(a, b)` with its default `rel_tol=1e-9, abs_tol=0.0` is
  `|a - b| ≤ 1e-9 * max |a| |b|`; Python tuple comparison is strict
  lexicographic order (`tieLt`), and the initial best tie-break value
  `(inf, inf, inf)` is modelled by `none`, every finite tuple comparing
  below it (`tieLtOpt`).
* Division is Lean's total division (`x / 0 = 0`); Python would raise
  `ZeroDivisionError` at a zero gate, a case none of the theorems below
  depends on (the gate values they touch are nonzero).
-/

namespace AirportRunway

noncomputable section

/-- geom.py line 50: `NM_PER_M = 1.0 / 1852.0`. -/
def NM_PER_M : ℝ := 1 / 1852

/-- geom.py line 51: `R_EARTH_M = 6_371_000.0`. -/
def R_EARTH_M : ℝ := 6371000

/-- Python float modulo with a positive modulus: `a % b = a - b * floor (a / b)`. -/
def fmod (a b : ℝ) : ℝ := a - b * ⌊a / b⌋

/-- geom.py `wrap_180` (lines 53-56): `x = (deg + 180.0) % 360.0 - 180.0`,
then `-180.0 if x == 180.0 else x`. -/
def wrap_180 (deg : ℝ) : ℝ :=
  if fmod (deg + 180) 360 - 180 = 180 then -180 else fmod (deg + 180) 360 - 180

/-- geom.py `ang_diff_deg` (lines 58-60). -/
def ang_diff_deg (a b : ℝ) : ℝ := |wrap_180 (a - b)|

/-- `math.radians`. -/
def radians (d : ℝ) : ℝ := d * Real.pi / 180

/-- `math.hypot`. -/
def hypot (x y : ℝ) : ℝ := Real.sqrt (x ^ 2 + y ^ 2)

/-- geom.py `RunwayDir` record. -/
structure RunwayDir where
  id : String
  lat_thr : ℝ
  lon_thr : ℝ
  course_deg : ℝ
  elev_ft : ℝ

/-- geom.py `AircraftState` record (altitudes may be absent). -/
structure AircraftState where
  callsign : String
  lat : ℝ
  lon : ℝ
  track_deg : ℝ
  velocity_mps : ℝ
  geo_alt : Option ℝ := none
  baro_alt : Option ℝ := none

/-- geom.py `ScoreParams`: a `total=False` TypedDict, i.e. every key may be
absent; an absent key is `none`. -/
structure ScoreParams where
  track_gate_deg : Option ℝ := none
  xtrack_gate_nm : Option ℝ := none
  w_track : Option ℝ := none
  w_xtrack : Option ℝ := none
  use_distance : Option Bool := none
  d_peak_nm : Option ℝ := none
  d_span_nm : Option ℝ := none
  w_dist : Option ℝ := none

/-- geom.py `DEFAULT_PARAMS` (lines 39-47). Note that the literal in the
source sets seven keys and does NOT set `xtrack_gate_nm`. -/
def DEFAULT_PARAMS : ScoreParams :=
  { track_gate_deg := some 20
    w_track := some 0.45
    w_xtrack := some 0.45
    use_distance := some true
    d_peak_nm := some 4
    d_span_nm := some 6
    w_dist := some 0.10 }

/-- geom.py `en_from_threshold` (lines 83-90); returns `(east_m, north_m)`. -/
def en_from_threshold (lat lon lat_thr lon_thr : ℝ) : ℝ × ℝ :=
  let phi0 := radians lat_thr
  let dphi := radians (lat - lat_thr)
  let dlam := radians (lon - lon_thr)
  (dlam * Real.cos phi0 * R_EARTH_M, dphi * R_EARTH_M)

/-- geom.py `runway_unit_vectors` (lines 92-106); returns `((a_e, a_n), (r_e, r_n))`. -/
def runway_unit_vectors (course_deg : ℝ) : (ℝ × ℝ) × (ℝ × ℝ) :=
  let th := radians course_deg
  ((Real.sin th, Real.cos th), (Real.cos th, -Real.sin th))

/-- geom.py `cross_along_nm` (lines 110-122); returns `(x_nm, s_nm, d_nm)`. -/
def cross_along_nm (ac_lat ac_lon : ℝ) (rw : RunwayDir) : ℝ × ℝ × ℝ :=
  let en := en_from_threshold ac_lat ac_lon rw.lat_thr rw.lon_thr
  let uv := runway_unit_vectors rw.course_deg
  let s_m := en.1 * uv.1.1 + en.2 * uv.1.2
  let x_m := en.1 * uv.2.1 + en.2 * uv.2.2
  let d_m := hypot en.1 en.2
  (x_m * NM_PER_M, s_m * NM_PER_M, d_m * NM_PER_M)

/-- The diagnostic dict returned by `runway_fit_score`: the failing branches
return only the keys `dtrack`, `x_nm`, `d_nm`; the passing branch adds
`s_nm`, `T`, `X`. -/
structure Terms where
  dtrack : ℝ
  x_nm : ℝ
  d_nm : ℝ
  s_nm : Option ℝ := none
  T : Option ℝ := none
  X : Option ℝ := none

/-- geom.py `runway_fit_score` (lines 125-155). Subscript accesses into
`params` that would raise `KeyError` on a missing key yield `none`. -/
def runway_fit_score (ac : AircraftState) (rw : RunwayDir) (params : ScoreParams) :
    Option (Bool × ℝ × Terms) :=
  let dtrack := ang_diff_deg ac.track_deg rw.course_deg
  let c := cross_along_nm ac.lat ac.lon rw
  let x_nm := c.1
  let s_nm := c.2.1
  let d_nm := c.2.2
  match params.track_gate_deg with
  | none => none
  | some tg =>
    if dtrack > tg then some (false, 0, ⟨dtrack, x_nm, d_nm, none, none, none⟩)
    else
      match params.xtrack_gate_nm with
      | none => none
      | some xg =>
        if |x_nm| > xg then some (false, 0, ⟨dtrack, x_nm, d_nm, none, none, none⟩)
        else
          match params.w_track, params.w_xtrack with
          | some wt, some wx =>
            let t := max 0 (1 - dtrack / tg)
            let x := max 0 (1 - |x_nm| / xg)
            let base := wt * t + wx * x
            if params.use_distance.getD false then
              match params.w_dist with
              | some wd =>
                let dpeak := params.d_peak_nm.getD 8
                let dspan := max (1 / 1000000) (params.d_span_nm.getD 8)
                let dterm := max 0 (1 - |d_nm - dpeak| / dspan)
                let score := (1 - wd) * base + wd * dterm
                some (true, min 1 (max 0 score),
                  ⟨dtrack, x_nm, d_nm, some s_nm, some t, some x⟩)
              | none => none
            else
              some (true, min 1 (max 0 base),
                ⟨dtrack, x_nm, d_nm, some s_nm, some t, some x⟩)
          | _, _ => none

/-- geom.py `confidence_from_terms` (lines 158-165), with `ad = |dtrack_deg|`
and `ax = |x_nm|` inlined. -/
def confidence_from_terms (dtrack_deg x_nm : ℝ) : String :=
  if |dtrack_deg| ≤ 10 ∧ |x_nm| ≤ 0.20 then "high"
  else if |dtrack_deg| ≤ 20 ∧ |x_nm| ≤ 0.40 then "medium"
  else "low"

/-- `math.isclose` with the default `rel_tol=1e-9`, `abs_tol=0.0`. -/
def isclose (a b : ℝ) : Prop := |a - b| ≤ (1 / 1000000000) * max |a| |b|

instance (a b : ℝ) : Decidable (isclose a b) := by
  unfold isclose
  infer_instance

/-- Python strict lexicographic comparison of 3-tuples. -/
def tieLt (t u : ℝ × ℝ × ℝ) : Prop :=
  t.1 < u.1 ∨ (t.1 = u.1 ∧ (t.2.1 < u.2.1 ∨ (t.2.1 = u.2.1 ∧ t.2.2 < u.2.2)))

instance (t u : ℝ × ℝ × ℝ) : Decidable (tieLt t u) := by
  unfold tieLt
  infer_instance

/-- Comparison against the running best tie-break value, whose initial value
is `(inf, inf, inf)` (modelled by `none`): every finite tuple is below it. -/
def tieLtOpt (t : ℝ × ℝ × ℝ) : Option (ℝ × ℝ × ℝ) → Prop
  | none => True
  | some u => tieLt t u

instance (t : ℝ × ℝ × ℝ) : (u : Option (ℝ × ℝ × ℝ)) → Decidable (tieLtOpt t u)
  | none => isTrue trivial
  | some u => inferInstanceAs (Decidable (tieLt t u))

/-- One debug entry recorded by `assign_runway_for_aircraft`:
`{"pass": float(passed), "score": score, **dbg}`. -/
structure DebugEntry where
  pass : Bool
  score : ℝ
  terms : Terms

/-- Insertion-ordered Python dict assignment `m[k] = v`: replaces the value
at an existing key in place, else appends. -/
def dictInsert (m : List (String × DebugEntry)) (k : String) (v : DebugEntry) :
    List (String × DebugEntry) :=
  match m with
  | [] => [(k, v)]
  | (k', v') :: rest => if k' = k then (k, v) :: rest else (k', v') :: dictInsert rest k v

/-- The loop state of `assign_runway_for_aircraft`: the `results` dict and
the running `best_id`, `best_score`, `best_tiebreak`. -/
structure SelState where
  results : List (String × DebugEntry)
  best_id : Option String
  best_score : ℝ
  best_tb : Option (ℝ × ℝ × ℝ)

/-- One iteration of the loop in geom.py `assign_runway_for_aircraft`
(lines 184-194). -/
def selStep (ac : AircraftState) (params : ScoreParams) (st : SelState) (rw : RunwayDir) :
    Option SelState :=
  match runway_fit_score ac rw params with
  | none => none
  | some r =>
    let results := dictInsert st.results rw.id ⟨r.1, r.2.1, r.2.2⟩
    if r.1 = false then some { st with results := results }
    else
      let tb := (|r.2.2.x_nm|, r.2.2.dtrack, r.2.2.d_nm)
      if r.2.1 > st.best_score ∨ (isclose r.2.1 st.best_score ∧ tieLtOpt tb st.best_tb) then
        some ⟨results, some rw.id, r.2.1, some tb⟩
      else some { st with results := results }

/-- The loop of `assign_runway_for_aircraft` over the runway list. -/
def selLoop (ac : AircraftState) (params : ScoreParams) :
    SelState → List RunwayDir → Option SelState
  | st, [] => some st
  | st, rw :: rest =>
    match selStep ac params st rw with
    | none => none
    | some st' => selLoop ac params st' rest

/-- geom.py `AssignmentResult` dict. -/
structure AssignResult where
  callsign : String
  best_id : Option String
  best_score : ℝ
  debug : List (String × DebugEntry)

/-- geom.py `assign_runway_for_aircraft` (lines 167-201). -/
def assign_runway_for_aircraft (ac : AircraftState) (runways : List RunwayDir)
    (params : ScoreParams) : Option AssignResult :=
  match selLoop ac params ⟨[], none, 0, none⟩ runways with
  | none => none
  | some st => some ⟨ac.callsign, st.best_id, st.best_score, st.results⟩

/-- geom.py `assign_runways` (lines 204-209). -/
def assign_runways (aircraft : List AircraftState) (runways : List RunwayDir)
    (params : ScoreParams) : Option (List AssignResult) :=
  aircraft.mapM fun ac => assign_runway_for_aircraft ac runways params

end

section WrapLemmas

lemma fmod_eq_mul_fract (a : ℝ) : fmod a 360 = 360 * Int.fract (a / 360) := by
  unfold fmod Int.fract
  field_simp

lemma fmod_nonneg360 (a : ℝ) : 0 ≤ fmod a 360 := by
  rw [fmod_eq_mul_fract]
  have := Int.fract_nonneg (a / 360)
  nlinarith

lemma fmod_lt360 (a : ℝ) : fmod a 360 < 360 := by
  rw [fmod_eq_mul_fract]
  have := Int.fract_lt_one (a / 360)
  nlinarith

lemma wrap_180_eq (deg : ℝ) : wrap_180 deg = fmod (deg + 180) 360 - 180 := by
  have h := fmod_lt360 (deg + 180)
  unfold wrap_180
  rw [if_neg (by intro hc; linarith)]

lemma wrap_180_lb (deg : ℝ) : -180 ≤ wrap_180 deg := by
  rw [wrap_180_eq]
  have := fmod_nonneg360 (deg + 180)
  linarith

lemma wrap_180_ub (deg : ℝ) : wrap_180 deg < 180 := by
  rw [wrap_180_eq]
  have := fmod_lt360 (deg + 180)
  linarith

lemma wrap_180_eq_self {deg : ℝ} (h1 : -180 ≤ deg) (h2 : deg < 180) :
    wrap_180 deg = deg := by
  rw [wrap_180_eq]
  unfold fmod
  have hfl : ⌊(deg + 180) / 360⌋ = 0 := by
    rw [Int.floor_eq_iff]
    constructor
    · push_cast
      exact div_nonneg (by linarith) (by norm_num)
    · push_cast
      rw [div_lt_iff₀ (by norm_num : (0:ℝ) < 360)]
      linarith
  rw [hfl]
  push_cast
  ring

lemma wrap_180_add_360 (deg : ℝ) : wrap_180 (deg + 360) = wrap_180 deg := by
  rw [wrap_180_eq, wrap_180_eq, fmod_eq_mul_fract, fmod_eq_mul_fract]
  have h : (deg + 360 + 180) / 360 = (deg + 180) / 360 + ((1 : ℤ) : ℝ) := by
    push_cast
    ring
  rw [h, Int.fract_add_int]

lemma abs_wrap_180_neg (d : ℝ) : |wrap_180 (-d)| = |wrap_180 d| := by
  rw [wrap_180_eq, wrap_180_eq, fmod_eq_mul_fract, fmod_eq_mul_fract]
  have hv : (-d + 180) / 360 = -((d + 180) / 360) + ((1 : ℤ) : ℝ) := by
    push_cast
    ring
  rw [hv, Int.fract_add_int]
  by_cases h : Int.fract ((d + 180) / 360) = 0
  · rw [Int.fract_neg_eq_zero.mpr h, h]
  · rw [Int.fract_neg h]
    have h' : 360 * (1 - Int.fract ((d + 180) / 360)) - 180 =
        -(360 * Int.fract ((d + 180) / 360) - 180) := by ring
    rw [h', abs_neg]

lemma ang_diff_deg_self (a : ℝ) : ang_diff_deg a a = 0 := by
  unfold ang_diff_deg
  rw [sub_self, wrap_180_eq_self (by norm_num) (by norm_num)]
  exact abs_zero

end WrapLemmas

/-- C2: the spec claims `wrap_180` maps into `(-180, 180]` with the boundary
value `wrap_180 180 = 180` preserved. In fact the code returns `-180` at
`deg = 180` and its range is `[-180, 180)`; the nearby evaluations
`wrap_180 181 = -179` and `wrap_180 (-181) = 179` do hold. -/
theorem c2_wrap_boundary :
    wrap_180 180 = -180 ∧ wrap_180 181 = -179 ∧ wrap_180 (-181) = 179 ∧
      ∀ deg : ℝ, -180 ≤ wrap_180 deg ∧ wrap_180 deg < 180 := by
  refine ⟨?_, ?_, ?_, fun deg => ⟨wrap_180_lb deg, wrap_180_ub deg⟩⟩
  · have h := wrap_180_add_360 (-180 : ℝ)
    rw [show (-180 : ℝ) + 360 = 180 by norm_num] at h
    rw [h, wrap_180_eq_self (by norm_num) (by norm_num)]
  · have h := wrap_180_add_360 (-179 : ℝ)
    rw [show (-179 : ℝ) + 360 = 181 by norm_num] at h
    rw [h, wrap_180_eq_self (by norm_num) (by norm_num)]
  · have h := wrap_180_add_360 (-181 : ℝ)
    rw [show (-181 : ℝ) + 360 = 179 by norm_num] at h
    rw [← h, wrap_180_eq_self (by norm_num) (by norm_num)]

/-- C8: `ang_diff_deg` is symmetric, lands in `[0, 180]`, and vanishes on
equal headings. -/
theorem c8_ang_diff_props :
    ∀ a b : ℝ, ang_diff_deg a b = ang_diff_deg b a ∧
      0 ≤ ang_diff_deg a b ∧ ang_diff_deg a b ≤ 180 ∧ ang_diff_deg a a = 0 := by
  intro a b
  refine ⟨?_, abs_nonneg _, ?_, ang_diff_deg_self a⟩
  · unfold ang_diff_deg
    rw [show b - a = -(a - b) by ring, abs_wrap_180_neg]
  · unfold ang_diff_deg
    have h1 := wrap_180_lb (a - b)
    have h2 := wrap_180_ub (a - b)
    rw [abs_le]
    constructor <;> linarith

section GeometryLemmas

lemma en_identity (e n th m : ℝ) :
    ((e * Real.cos th + n * -Real.sin th) * m) ^ 2 +
        ((e * Real.sin th + n * Real.cos th) * m) ^ 2 =
      (Real.sqrt (e ^ 2 + n ^ 2) * m) ^ 2 := by
  have hd : Real.sqrt (e ^ 2 + n ^ 2) ^ 2 = e ^ 2 + n ^ 2 :=
    Real.sq_sqrt (by positivity)
  have hsc := Real.sin_sq_add_cos_sq th
  linear_combination (m ^ 2 * (e ^ 2 + n ^ 2)) * hsc - m ^ 2 * hd

lemma cross_along_nm_def (lat lon : ℝ) (rw : RunwayDir) :
    cross_along_nm lat lon rw =
      (((en_from_threshold lat lon rw.lat_thr rw.lon_thr).1 *
            (runway_unit_vectors rw.course_deg).2.1 +
          (en_from_threshold lat lon rw.lat_thr rw.lon_thr).2 *
            (runway_unit_vectors rw.course_deg).2.2) * NM_PER_M,
        ((en_from_threshold lat lon rw.lat_thr rw.lon_thr).1 *
            (runway_unit_vectors rw.course_deg).1.1 +
          (en_from_threshold lat lon rw.lat_thr rw.lon_thr).2 *
            (runway_unit_vectors rw.course_deg).1.2) * NM_PER_M,
        hypot (en_from_threshold lat lon rw.lat_thr rw.lon_thr).1
            (en_from_threshold lat lon rw.lat_thr rw.lon_thr).2 * NM_PER_M) := rfl

end GeometryLemmas

/-- C10: for every aircraft position and runway direction, the returned
triple `(x_nm, s_nm, d_nm)` satisfies `x_nm ^ 2 + s_nm ^ 2 = d_nm ^ 2` with
`d_nm ≥ 0`, and `runway_unit_vectors` always returns an orthonormal pair. -/
theorem c10_cross_along_pythagorean :
    ∀ (lat lon : ℝ) (rw : RunwayDir),
      ((cross_along_nm lat lon rw).1) ^ 2 + ((cross_along_nm lat lon rw).2.1) ^ 2 =
          ((cross_along_nm lat lon rw).2.2) ^ 2 ∧
      0 ≤ (cross_along_nm lat lon rw).2.2 ∧
      ∀ c : ℝ,
        (runway_unit_vectors c).1.1 * (runway_unit_vectors c).2.1 +
            (runway_unit_vectors c).1.2 * (runway_unit_vectors c).2.2 = 0 ∧
        (runway_unit_vectors c).1.1 ^ 2 + (runway_unit_vectors c).1.2 ^ 2 = 1 ∧
        (runway_unit_vectors c).2.1 ^ 2 + (runway_unit_vectors c).2.2 ^ 2 = 1 := by
  intro lat lon rw
  refine ⟨?_, ?_, ?_⟩
  · rw [cross_along_nm_def]
    simp only [runway_unit_vectors]
    exact en_identity _ _ _ _
  · rw [cross_along_nm_def]
    simp only
    apply mul_nonneg (Real.sqrt_nonneg _)
    rw [NM_PER_M]
    norm_num
  · intro c
    simp only [runway_unit_vectors]
    refine ⟨by ring, Real.sin_sq_add_cos_sq _, ?_⟩
    have h := Real.sin_sq_add_cos_sq (radians c)
    nlinarith [h]

noncomputable section FitLemmas

/-- The keys a call of `runway_fit_score` may look up by subscript (which
raises `KeyError` when absent): both gates, both weights, and `w_dist`
whenever the distance term is enabled. -/
def ScoreParams.wf (ps : ScoreParams) : Prop :=
  ps.track_gate_deg.isSome = true ∧ ps.xtrack_gate_nm.isSome = true ∧
    ps.w_track.isSome = true ∧ ps.w_xtrack.isSome = true ∧
    (ps.use_distance.getD false = true → ps.w_dist.isSome = true)

lemma ang_diff_deg_of_small {a b : ℝ} (h0 : 0 ≤ a - b) (h2 : a - b < 180) :
    ang_diff_deg a b = a - b := by
  unfold ang_diff_deg
  rw [wrap_180_eq_self (by linarith) h2]
  exact abs_of_nonneg h0

lemma fit_gate_fail (ac : AircraftState) (rw : RunwayDir) (ps : ScoreParams) (g xg : ℝ)
    (htg : ps.track_gate_deg = some g) (hxg : ps.xtrack_gate_nm = some xg)
    (hgate : ang_diff_deg ac.track_deg rw.course_deg > g ∨
      |(cross_along_nm ac.lat ac.lon rw).1| > xg) :
    runway_fit_score ac rw ps = some (false, 0,
      ⟨ang_diff_deg ac.track_deg rw.course_deg, (cross_along_nm ac.lat ac.lon rw).1,
        (cross_along_nm ac.lat ac.lon rw).2.2, none, none, none⟩) := by
  unfold runway_fit_score
  simp only [htg, hxg]
  rcases hgate with h | h
  · rw [if_pos h]
  · by_cases h1 : ang_diff_deg ac.track_deg rw.course_deg > g
    · rw [if_pos h1]
    · rw [if_neg h1, if_pos h]

lemma fit_total (ac : AircraftState) (rw : RunwayDir) (ps : ScoreParams)
    (hwf : ps.wf) : ∃ r, runway_fit_score ac rw ps = some r := by
  obtain ⟨h1, h2, h3, h4, h5⟩ := hwf
  obtain ⟨tg, htg⟩ := Option.isSome_iff_exists.mp h1
  obtain ⟨xg, hxg⟩ := Option.isSome_iff_exists.mp h2
  obtain ⟨wt, hwt⟩ := Option.isSome_iff_exists.mp h3
  obtain ⟨wx, hwx⟩ := Option.isSome_iff_exists.mp h4
  unfold runway_fit_score
  simp only [htg, hxg, hwt, hwx]
  by_cases hg1 : ang_diff_deg ac.track_deg rw.course_deg > tg
  · rw [if_pos hg1]
    exact ⟨_, rfl⟩
  rw [if_neg hg1]
  by_cases hg2 : |(cross_along_nm ac.lat ac.lon rw).1| > xg
  · rw [if_pos hg2]
    exact ⟨_, rfl⟩
  rw [if_neg hg2]
  cases hud : ps.use_distance.getD false
  · rw [if_neg (by simp)]
    exact ⟨_, rfl⟩
  · obtain ⟨wd, hwd⟩ := Option.isSome_iff_exists.mp (h5 hud)
    rw [if_pos rfl, hwd]
    exact ⟨_, rfl⟩

/-- C6: whenever `Δtrack` exceeds the track gate or `|x_nm|` exceeds the
cross-track gate, `runway_fit_score` returns `passes = False` and
`score = 0.0` immediately, still reporting `Δtrack`, `x_nm` and `d_nm` in
the diagnostic terms. -/
theorem c6_hard_gates (ac : AircraftState) (rw : RunwayDir) (ps : ScoreParams) (g xg : ℝ)
    (htg : ps.track_gate_deg = some g) (hxg : ps.xtrack_gate_nm = some xg)
    (hgate : ang_diff_deg ac.track_deg rw.course_deg > g ∨
      |(cross_along_nm ac.lat ac.lon rw).1| > xg) :
    runway_fit_score ac rw ps = some (false, 0,
      ⟨ang_diff_deg ac.track_deg rw.course_deg, (cross_along_nm ac.lat ac.lon rw).1,
        (cross_along_nm ac.lat ac.lon rw).2.2, none, none, none⟩) :=
  fit_gate_fail ac rw ps g xg htg hxg hgate

def acW6 : AircraftState := ⟨"w6", 0.05, 0, 25, 0, none, none⟩

def rwW6 : RunwayDir := ⟨"W6", 0, 0, 0, 23⟩

def psW6 : ScoreParams := ⟨some 20, some 0.3, some 0.5, some 0.5, some false, none, none, none⟩

/-- Witness for C6: an aircraft with track `25°` against a runway of course
`0°` (so `Δtrack = 25 > 20`) is rejected with score `0`. -/
theorem c6_hard_gates_witness :
    runway_fit_score acW6 rwW6 psW6 = some (false, 0,
      ⟨ang_diff_deg acW6.track_deg rwW6.course_deg, (cross_along_nm acW6.lat acW6.lon rwW6).1,
        (cross_along_nm acW6.lat acW6.lon rwW6).2.2, none, none, none⟩) :=
  c6_hard_gates acW6 rwW6 psW6 20 0.3 rfl rfl (Or.inl (by
    show ang_diff_deg 25 0 > 20
    rw [@ang_diff_deg_of_small 25 0 (by norm_num) (by norm_num)]
    norm_num))

/-- C4: any score returned by `runway_fit_score` lies in `[0, 1]`, and a
gate failure returns exactly `0.0`. -/
theorem c4_score_in_unit_interval :
    ∀ (ac : AircraftState) (rw : RunwayDir) (ps : ScoreParams) (p : Bool) (s : ℝ) (t : Terms),
      runway_fit_score ac rw ps = some (p, s, t) →
        (0 ≤ s ∧ s ≤ 1) ∧ (p = false → s = 0) := by
  intro ac rw ps p s t h
  unfold runway_fit_score at h
  rcases htg : ps.track_gate_deg with _ | tg
  · simp [htg] at h
  simp only [htg] at h
  by_cases hg1 : ang_diff_deg ac.track_deg rw.course_deg > tg
  · rw [if_pos hg1] at h
    simp only [Option.some.injEq, Prod.mk.injEq] at h
    obtain ⟨hp, hs, -⟩ := h
    subst hp
    subst hs
    norm_num
  rw [if_neg hg1] at h
  rcases hxg : ps.xtrack_gate_nm with _ | xg
  · simp [hxg] at h
  simp only [hxg] at h
  by_cases hg2 : |(cross_along_nm ac.lat ac.lon rw).1| > xg
  · rw [if_pos hg2] at h
    simp only [Option.some.injEq, Prod.mk.injEq] at h
    obtain ⟨hp, hs, -⟩ := h
    subst hp
    subst hs
    norm_num
  rw [if_neg hg2] at h
  rcases hwt : ps.w_track with _ | wt
  · simp [hwt] at h
  rcases hwx : ps.w_xtrack with _ | wx
  · simp [hwt, hwx] at h
  simp only [hwt, hwx] at h
  cases hud : ps.use_distance.getD false
  · rw [hud, if_neg (by simp)] at h
    simp only [Option.some.injEq, Prod.mk.injEq] at h
    obtain ⟨hp, hs, -⟩ := h
    subst hp
    subst hs
    refine ⟨⟨le_min (by norm_num) (le_max_left _ _), min_le_left _ _⟩, ?_⟩
    intro hc
    exact absurd hc (by simp)
  · rw [hud, if_pos rfl] at h
    rcases hwd : ps.w_dist with _ | wd
    · simp [hwd] at h
    simp only [hwd] at h
    simp only [Option.some.injEq, Prod.mk.injEq] at h
    obtain ⟨hp, hs, -⟩ := h
    subst hp
    subst hs
    refine ⟨⟨le_min (by norm_num) (le_max_left _ _), min_le_left _ _⟩, ?_⟩
    intro hc
    exact absurd hc (by simp)

def acW4 : AircraftState := ⟨"w4", 0.05, 0, 30, 0, none, none⟩

def rwW4 : RunwayDir := ⟨"W4", 0, 0, 0, 23⟩

def psW4 : ScoreParams := ⟨some 20, some 0.3, some 0.5, some 0.5, some false, none, none, none⟩

def tW4 : Terms :=
  ⟨ang_diff_deg acW4.track_deg rwW4.course_deg, (cross_along_nm acW4.lat acW4.lon rwW4).1,
    (cross_along_nm acW4.lat acW4.lon rwW4).2.2, none, none, none⟩

/-- Witness for C4 at a concrete gate-failing input (track `30°` against
course `0°`), whose returned score is `0`. -/
theorem c4_score_in_unit_interval_witness :
    ((0:ℝ) ≤ 0 ∧ (0:ℝ) ≤ 1) ∧ (false = false → (0:ℝ) = 0) :=
  c4_score_in_unit_interval acW4 rwW4 psW4 false 0 tW4
    (fit_gate_fail acW4 rwW4 psW4 20 0.3 rfl rfl (Or.inl (by
      show ang_diff_deg 30 0 > 20
      rw [@ang_diff_deg_of_small 30 0 (by norm_num) (by norm_num)]
      norm_num)))

def acC1 : AircraftState := ⟨"c1", 0.05, 0, 0, 0, none, none⟩

def rwC1 : RunwayDir := ⟨"C1", 0, 0, 0, 23⟩

lemma fit_default_keyerror : runway_fit_score acC1 rwC1 DEFAULT_PARAMS = none := by
  have hdt : ang_diff_deg acC1.track_deg rwC1.course_deg = 0 := ang_diff_deg_self 0
  unfold runway_fit_score
  simp only [DEFAULT_PARAMS]
  rw [if_neg]
  · intro hc
    rw [hdt] at hc
    norm_num at hc

/-- C1 evaluation: `DEFAULT_PARAMS` omits the key `xtrack_gate_nm`, so on a
well-formed aircraft/runway pair that survives the track gate,
`runway_fit_score` reaches the subscript `params["xtrack_gate_nm"]` and
raises `KeyError` (modelled as `none`) instead of using the documented
default `0.3`; `assign_runway_for_aircraft` propagates the exception. -/
theorem c1_default_params_keyerror :
    runway_fit_score acC1 rwC1 DEFAULT_PARAMS = none ∧
    assign_runway_for_aircraft acC1 [rwC1] DEFAULT_PARAMS = none := by
  refine ⟨fit_default_keyerror, ?_⟩
  have hstep : selStep acC1 DEFAULT_PARAMS ⟨[], none, 0, none⟩ rwC1 = none := by
    unfold selStep
    simp only [fit_default_keyerror]
  have heq : selLoop acC1 DEFAULT_PARAMS ⟨[], none, 0, none⟩ [rwC1] =
      match selStep acC1 DEFAULT_PARAMS ⟨[], none, 0, none⟩ rwC1 with
      | none => none
      | some st => selLoop acC1 DEFAULT_PARAMS st [] := rfl
  have hloop : selLoop acC1 DEFAULT_PARAMS ⟨[], none, 0, none⟩ [rwC1] = none := by
    rw [heq, hstep]
  unfold assign_runway_for_aircraft
  simp only [hloop]

end FitLemmas

noncomputable section EvalLemmas

/-- Nautical miles per degree of latitude under the flat-earth projection of
geom.py: `pi / 180 * R_EARTH_M * NM_PER_M`. -/
def latDegNM : ℝ := Real.pi / 180 * R_EARTH_M * NM_PER_M

lemma latDegNM_bounds : 60 < latDegNM ∧ latDegNM < 60.1 := by
  unfold latDegNM R_EARTH_M NM_PER_M
  have h1 := Real.pi_gt_d6
  have h2 := Real.pi_lt_d6
  constructor <;> nlinarith

lemma radians_zero : radians 0 = 0 := by
  unfold radians
  ring

/-- Evaluation of `cross_along_nm` for an aircraft on the extended
centerline of a due-north runway through longitude 0. -/
lemma cross_along_nm_centerline (lat : ℝ) (rw : RunwayDir)
    (hlon : rw.lon_thr = 0) (hcourse : rw.course_deg = 0) (h : rw.lat_thr ≤ lat) :
    cross_along_nm lat 0 rw =
      (0, (lat - rw.lat_thr) * latDegNM, (lat - rw.lat_thr) * latDegNM) := by
  have hπ := Real.pi_pos
  have hsub : (0:ℝ) ≤ lat - rw.lat_thr := sub_nonneg.mpr h
  have hn : 0 ≤ radians (lat - rw.lat_thr) * R_EARTH_M := by
    unfold radians R_EARTH_M
    have hx : 0 ≤ (lat - rw.lat_thr) * Real.pi := mul_nonneg hsub hπ.le
    have hy : 0 ≤ (lat - rw.lat_thr) * Real.pi / 180 := div_nonneg hx (by norm_num)
    nlinarith
  have hsq : Real.sqrt ((0:ℝ) ^ 2 + (radians (lat - rw.lat_thr) * R_EARTH_M) ^ 2) =
      radians (lat - rw.lat_thr) * R_EARTH_M := by
    rw [show (0:ℝ) ^ 2 + (radians (lat - rw.lat_thr) * R_EARTH_M) ^ 2 =
        (radians (lat - rw.lat_thr) * R_EARTH_M) ^ 2 by ring, Real.sqrt_sq hn]
  unfold cross_along_nm en_from_threshold runway_unit_vectors hypot
  rw [hlon, hcourse]
  simp only [sub_zero, radians_zero, Real.sin_zero, Real.cos_zero, mul_zero, zero_mul,
    mul_one, one_mul, neg_zero, add_zero, zero_add]
  rw [hsq]
  simp only [Prod.mk.injEq]
  refine ⟨trivial, ?_, ?_⟩ <;>
    · unfold latDegNM radians NM_PER_M R_EARTH_M
      ring

/-- The `ScoreParams` dict of the spec's on-course scenario (§8) and of the
tie-break analysis: every key present, distance term enabled. -/
def psDist : ScoreParams :=
  ⟨some 20, some 0.3, some 0.45, some 0.45, some true, some 4, some 6, some 0.1⟩

/-- A fully-populated `ScoreParams` dict with the distance term disabled. -/
def psTie : ScoreParams :=
  ⟨some 20, some 0.3, some 0.45, some 0.45, some false, none, none, none⟩

lemma fit_pass_nodist (ac : AircraftState) (rw : RunwayDir)
    (hdt : ang_diff_deg ac.track_deg rw.course_deg = 0)
    (hx : (cross_along_nm ac.lat ac.lon rw).1 = 0) :
    runway_fit_score ac rw psTie =
      some (true, 0.9, ⟨0, 0, (cross_along_nm ac.lat ac.lon rw).2.2,
        some (cross_along_nm ac.lat ac.lon rw).2.1, some 1, some 1⟩) := by
  have hT : (0:ℝ) ⊔ (1 - 0 / 20) = 1 := by
    rw [show (1:ℝ) - 0 / 20 = 1 by norm_num]
    exact max_eq_right (by norm_num)
  have hX : (0:ℝ) ⊔ (1 - |(0:ℝ)| / 0.3) = 1 := by
    rw [abs_zero, show (1:ℝ) - 0 / 0.3 = 1 by norm_num]
    exact max_eq_right (by norm_num)
  unfold runway_fit_score
  simp only [psTie]
  rw [hdt, hx]
  rw [if_neg (by norm_num), if_neg (by rw [abs_zero]; norm_num)]
  rw [if_neg (by simp)]
  rw [hT, hX]
  rw [show (0.45:ℝ) * 1 + 0.45 * 1 = 0.9 by norm_num]
  rw [max_eq_right (by norm_num : (0:ℝ) ≤ 0.9), min_eq_right (by norm_num : (0.9:ℝ) ≤ 1)]

lemma fit_pass_dist (ac : AircraftState) (rw : RunwayDir)
    (hdt : ang_diff_deg ac.track_deg rw.course_deg = 0)
    (hx : (cross_along_nm ac.lat ac.lon rw).1 = 0)
    (hd0 : 0 < (cross_along_nm ac.lat ac.lon rw).2.2)
    (hd4 : (cross_along_nm ac.lat ac.lon rw).2.2 < 4) :
    runway_fit_score ac rw psDist =
      some (true, 0.81 + (2 + (cross_along_nm ac.lat ac.lon rw).2.2) / 60,
        ⟨0, 0, (cross_along_nm ac.lat ac.lon rw).2.2,
          some (cross_along_nm ac.lat ac.lon rw).2.1, some 1, some 1⟩) := by
  have hT : (0:ℝ) ⊔ (1 - 0 / 20) = 1 := by
    rw [show (1:ℝ) - 0 / 20 = 1 by norm_num]
    exact max_eq_right (by norm_num)
  have hX : (0:ℝ) ⊔ (1 - |(0:ℝ)| / 0.3) = 1 := by
    rw [abs_zero, show (1:ℝ) - 0 / 0.3 = 1 by norm_num]
    exact max_eq_right (by norm_num)
  have hspan : (1:ℝ) / 1000000 ⊔ (6:ℝ) = 6 := max_eq_right (by norm_num)
  have habs : |(cross_along_nm ac.lat ac.lon rw).2.2 - 4| =
      4 - (cross_along_nm ac.lat ac.lon rw).2.2 := by
    rw [abs_of_nonpos (by linarith)]
    ring
  unfold runway_fit_score
  simp only [psDist, Option.getD_some]
  rw [hdt, hx]
  rw [if_neg (by norm_num), if_neg (by rw [abs_zero]; norm_num)]
  rw [if_pos (by simp)]
  rw [hT, hX, hspan, habs]
  rw [max_eq_right
    (by linarith : (0:ℝ) ≤ 1 - (4 - (cross_along_nm ac.lat ac.lon rw).2.2) / 6)]
  rw [show (1 - 0.1) * ((0.45:ℝ) * 1 + 0.45 * 1) +
      0.1 * (1 - (4 - (cross_along_nm ac.lat ac.lon rw).2.2) / 6) =
      0.81 + (2 + (cross_along_nm ac.lat ac.lon rw).2.2) / 60 by ring]
  rw [max_eq_right
    (by linarith : (0:ℝ) ≤ 0.81 + (2 + (cross_along_nm ac.lat ac.lon rw).2.2) / 60)]
  rw [min_eq_right
    (by linarith : 0.81 + (2 + (cross_along_nm ac.lat ac.lon rw).2.2) / 60 ≤ 1)]

end EvalLemmas

noncomputable section ScenarioC7

def acC7 : AircraftState := ⟨"c7", 0.01, 0, 0, 77, none, none⟩

def rwC7 : RunwayDir := ⟨"RW", 0, 0, 0, 23⟩

/-- C7: the spec's on-course, on-centerline scenario. Threshold `(0,0)`,
course `0°`, aircraft at `(0.01, 0)` with track `0°`, scored under the full
parameter set with the distance term enabled: the candidate passes with
`x_nm = 0`, `Δtrack = 0`, `T = X = 1`, `d_nm = 0.01·latDegNM ≈ 0.60 NM`
(within 1%), base score `0.90`, distance term `≈ 0.4335` (within `0.001`)
and final score `≈ 0.853` (within `0.01`). -/
theorem c7_on_course_scenario :
    runway_fit_score acC7 rwC7 psDist =
      some (true, 0.81 + (2 + 0.01 * latDegNM) / 60,
        ⟨0, 0, 0.01 * latDegNM, some (0.01 * latDegNM), some 1, some 1⟩) ∧
    |0.01 * latDegNM - 0.60| ≤ 0.006 ∧
    (0.45 : ℝ) * 1 + 0.45 * 1 = 0.90 ∧
    |((0:ℝ) ⊔ (1 - |0.01 * latDegNM - 4| / ((1:ℝ) / 1000000 ⊔ 6))) - 0.4335| ≤ 0.001 ∧
    |0.81 + (2 + 0.01 * latDegNM) / 60 - 0.853| ≤ 0.01 := by
  obtain ⟨hb1, hb2⟩ := latDegNM_bounds
  have hc := cross_along_nm_centerline 0.01 rwC7 rfl rfl (by norm_num [rwC7])
  have hl : rwC7.lat_thr = 0 := rfl
  rw [hl, show (0.01 - 0 : ℝ) = 0.01 by norm_num] at hc
  have h1 : (cross_along_nm acC7.lat acC7.lon rwC7).1 = 0 := by
    show (cross_along_nm 0.01 0 rwC7).1 = 0
    rw [hc]
  have h21 : (cross_along_nm acC7.lat acC7.lon rwC7).2.1 = 0.01 * latDegNM := by
    show (cross_along_nm 0.01 0 rwC7).2.1 = _
    rw [hc]
  have h22 : (cross_along_nm acC7.lat acC7.lon rwC7).2.2 = 0.01 * latDegNM := by
    show (cross_along_nm 0.01 0 rwC7).2.2 = _
    rw [hc]
  have hdt : ang_diff_deg acC7.track_deg rwC7.course_deg = 0 := ang_diff_deg_self 0
  have hd0 : 0 < (cross_along_nm acC7.lat acC7.lon rwC7).2.2 := by
    rw [h22]
    linarith
  have hd4 : (cross_along_nm acC7.lat acC7.lon rwC7).2.2 < 4 := by
    rw [h22]
    linarith
  have hfit := fit_pass_dist acC7 rwC7 hdt h1 hd0 hd4
  rw [h21, h22] at hfit
  refine ⟨hfit, ?_, by norm_num, ?_, ?_⟩
  · rw [abs_le]
    constructor <;> linarith
  · rw [show ((1:ℝ) / 1000000 ⊔ 6) = 6 from max_eq_right (by norm_num)]
    rw [abs_of_nonpos (by linarith : (0.01:ℝ) * latDegNM - 4 ≤ 0)]
    rw [max_eq_right (by linarith : (0:ℝ) ≤ 1 - -(0.01 * latDegNM - 4) / 6)]
    rw [abs_le]
    constructor <;> linarith
  · rw [abs_le]
    constructor <;> linarith

end ScenarioC7

noncomputable section SelectionLemmas

lemma isclose_self (a : ℝ) : isclose a a := by
  unfold isclose
  rw [sub_self, abs_zero]
  positivity

lemma tieLt_asymm {t u : ℝ × ℝ × ℝ} (h : tieLt t u) : ¬ tieLt u t := by
  unfold tieLt at h ⊢
  rcases h with h | ⟨h1, h | ⟨h2, h3⟩⟩ <;>
    rintro (h' | ⟨h1', h' | ⟨h2', h3'⟩⟩) <;> linarith

lemma selStep_pass_update (ac : AircraftState) (ps : ScoreParams) (st : SelState)
    (rw : RunwayDir) (s : ℝ) (t : Terms)
    (hfit : runway_fit_score ac rw ps = some (true, s, t))
    (hcond : s > st.best_score ∨
      (isclose s st.best_score ∧ tieLtOpt (|t.x_nm|, t.dtrack, t.d_nm) st.best_tb)) :
    selStep ac ps st rw = some ⟨dictInsert st.results rw.id ⟨true, s, t⟩,
      some rw.id, s, some (|t.x_nm|, t.dtrack, t.d_nm)⟩ := by
  unfold selStep
  simp only [hfit]
  rw [if_neg (by simp), if_pos hcond]

lemma selStep_pass_keep (ac : AircraftState) (ps : ScoreParams) (st : SelState)
    (rw : RunwayDir) (s : ℝ) (t : Terms)
    (hfit : runway_fit_score ac rw ps = some (true, s, t))
    (hcond : ¬(s > st.best_score ∨
      (isclose s st.best_score ∧ tieLtOpt (|t.x_nm|, t.dtrack, t.d_nm) st.best_tb))) :
    selStep ac ps st rw =
      some { st with results := dictInsert st.results rw.id ⟨true, s, t⟩ } := by
  unfold selStep
  simp only [hfit]
  rw [if_neg (by simp), if_neg hcond]

lemma selStep_fail (ac : AircraftState) (ps : ScoreParams) (st : SelState)
    (rw : RunwayDir) (s : ℝ) (t : Terms)
    (hfit : runway_fit_score ac rw ps = some (false, s, t)) :
    selStep ac ps st rw =
      some { st with results := dictInsert st.results rw.id ⟨false, s, t⟩ } := by
  unfold selStep
  simp only [hfit]
  rw [if_pos trivial]

lemma selLoop_cons (ac : AircraftState) (ps : ScoreParams) (st : SelState)
    (rw : RunwayDir) (rest : List RunwayDir) (st' : SelState)
    (h : selStep ac ps st rw = some st') :
    selLoop ac ps st (rw :: rest) = selLoop ac ps st' rest := by
  have heq : selLoop ac ps st (rw :: rest) =
      match selStep ac ps st rw with
      | none => none
      | some st'' => selLoop ac ps st'' rest := rfl
  rw [heq, h]

lemma assign_eq (ac : AircraftState) (ps : ScoreParams) (runways : List RunwayDir)
    (st' : SelState) (h : selLoop ac ps ⟨[], none, 0, none⟩ runways = some st') :
    assign_runway_for_aircraft ac runways ps =
      some ⟨ac.callsign, st'.best_id, st'.best_score, st'.results⟩ := by
  unfold assign_runway_for_aircraft
  simp only [h]

end SelectionLemmas

noncomputable section ClaimC3

/-- C3 (amended): among passing candidates the primary key "higher score
wins" holds, and the tuple tie-break `(|x_nm|, Δtrack, d_nm)` decides only
when a later candidate's score does not strictly exceed the running best —
in particular, when two passing candidates have exactly equal positive
scores, the candidate with the lexicographically smaller tuple is selected
in either input order. -/
theorem c3_exact_tie_tiebreak (ac : AircraftState) (r1 r2 : RunwayDir) (ps : ScoreParams)
    (s : ℝ) (t1 t2 : Terms)
    (h1 : runway_fit_score ac r1 ps = some (true, s, t1))
    (h2 : runway_fit_score ac r2 ps = some (true, s, t2))
    (hs : 0 < s)
    (htb : tieLt (|t2.x_nm|, t2.dtrack, t2.d_nm) (|t1.x_nm|, t1.dtrack, t1.d_nm)) :
    (assign_runway_for_aircraft ac [r1, r2] ps).map AssignResult.best_id =
        some (some r2.id) ∧
    (assign_runway_for_aircraft ac [r2, r1] ps).map AssignResult.best_id =
        some (some r2.id) := by
  constructor
  · have e1 : selStep ac ps ⟨[], none, 0, none⟩ r1 =
        some ⟨dictInsert [] r1.id ⟨true, s, t1⟩, some r1.id, s,
          some (|t1.x_nm|, t1.dtrack, t1.d_nm)⟩ :=
      selStep_pass_update ac ps ⟨[], none, 0, none⟩ r1 s t1 h1 (Or.inl hs)
    have e2 : selStep ac ps ⟨dictInsert [] r1.id ⟨true, s, t1⟩, some r1.id, s,
        some (|t1.x_nm|, t1.dtrack, t1.d_nm)⟩ r2 =
        some ⟨dictInsert (dictInsert [] r1.id ⟨true, s, t1⟩) r2.id ⟨true, s, t2⟩,
          some r2.id, s, some (|t2.x_nm|, t2.dtrack, t2.d_nm)⟩ :=
      selStep_pass_update ac ps _ r2 s t2 h2 (Or.inr ⟨isclose_self s, htb⟩)
    have hloop : selLoop ac ps ⟨[], none, 0, none⟩ [r1, r2] =
        some ⟨dictInsert (dictInsert [] r1.id ⟨true, s, t1⟩) r2.id ⟨true, s, t2⟩,
          some r2.id, s, some (|t2.x_nm|, t2.dtrack, t2.d_nm)⟩ :=
      (selLoop_cons ac ps ⟨[], none, 0, none⟩ r1 [r2] _ e1).trans
        ((selLoop_cons ac ps _ r2 [] _ e2).trans rfl)
    rw [assign_eq ac ps [r1, r2] _ hloop]
    rfl
  · have e1 : selStep ac ps ⟨[], none, 0, none⟩ r2 =
        some ⟨dictInsert [] r2.id ⟨true, s, t2⟩, some r2.id, s,
          some (|t2.x_nm|, t2.dtrack, t2.d_nm)⟩ :=
      selStep_pass_update ac ps ⟨[], none, 0, none⟩ r2 s t2 h2 (Or.inl hs)
    have e2 : selStep ac ps ⟨dictInsert [] r2.id ⟨true, s, t2⟩, some r2.id, s,
        some (|t2.x_nm|, t2.dtrack, t2.d_nm)⟩ r1 =
        some ⟨dictInsert (dictInsert [] r2.id ⟨true, s, t2⟩) r1.id ⟨true, s, t1⟩,
          some r2.id, s, some (|t2.x_nm|, t2.dtrack, t2.d_nm)⟩ :=
      selStep_pass_keep ac ps _ r1 s t1 h1 (by
        rintro (hc | ⟨-, hc⟩)
        · exact lt_irrefl s hc
        · exact tieLt_asymm htb hc)
    have hloop : selLoop ac ps ⟨[], none, 0, none⟩ [r2, r1] =
        some ⟨dictInsert (dictInsert [] r2.id ⟨true, s, t2⟩) r1.id ⟨true, s, t1⟩,
          some r2.id, s, some (|t2.x_nm|, t2.dtrack, t2.d_nm)⟩ :=
      (selLoop_cons ac ps ⟨[], none, 0, none⟩ r2 [r1] _ e1).trans
        ((selLoop_cons ac ps _ r1 [] _ e2).trans rfl)
    rw [assign_eq ac ps [r2, r1] _ hloop]
    rfl

def acW3 : AircraftState := ⟨"w3", 0.05, 0, 0, 140, none, none⟩

def rwW3A : RunwayDir := ⟨"A", 0, 0, 0, 23⟩

def rwW3B : RunwayDir := ⟨"B", 0.01, 0, 0, 23⟩

/-- Witness for C3 (amended): two due-north runways on the same centerline
scored without the distance term get exactly equal scores `0.9`; the one
with smaller `d_nm` (runway "B") wins in both input orders. -/
theorem c3_exact_tie_tiebreak_witness :
    (assign_runway_for_aircraft acW3 [rwW3A, rwW3B] psTie).map AssignResult.best_id =
        some (some "B") ∧
    (assign_runway_for_aircraft acW3 [rwW3B, rwW3A] psTie).map AssignResult.best_id =
        some (some "B") := by
  obtain ⟨hb1, hb2⟩ := latDegNM_bounds
  have hcA := cross_along_nm_centerline 0.05 rwW3A rfl rfl (by norm_num [rwW3A])
  have hcB := cross_along_nm_centerline 0.05 rwW3B rfl rfl (by norm_num [rwW3B])
  have hxA : (cross_along_nm acW3.lat acW3.lon rwW3A).1 = 0 := by
    show (cross_along_nm 0.05 0 rwW3A).1 = 0
    rw [hcA]
  have hxB : (cross_along_nm acW3.lat acW3.lon rwW3B).1 = 0 := by
    show (cross_along_nm 0.05 0 rwW3B).1 = 0
    rw [hcB]
  have hfitA := fit_pass_nodist acW3 rwW3A (ang_diff_deg_self 0) hxA
  have hfitB := fit_pass_nodist acW3 rwW3B (ang_diff_deg_self 0) hxB
  have hdA : (cross_along_nm acW3.lat acW3.lon rwW3A).2.2 =
      (0.05 - rwW3A.lat_thr) * latDegNM := by
    show (cross_along_nm 0.05 0 rwW3A).2.2 = _
    rw [hcA]
  have hdB : (cross_along_nm acW3.lat acW3.lon rwW3B).2.2 =
      (0.05 - rwW3B.lat_thr) * latDegNM := by
    show (cross_along_nm 0.05 0 rwW3B).2.2 = _
    rw [hcB]
  have htb : tieLt (|(0:ℝ)|, 0, (cross_along_nm acW3.lat acW3.lon rwW3B).2.2)
      (|(0:ℝ)|, 0, (cross_along_nm acW3.lat acW3.lon rwW3A).2.2) := by
    unfold tieLt
    refine Or.inr ⟨rfl, Or.inr ⟨rfl, ?_⟩⟩
    rw [hdA, hdB]
    have h0 : rwW3A.lat_thr = 0 := rfl
    have h1 : rwW3B.lat_thr = 0.01 := rfl
    rw [h0, h1]
    nlinarith
  exact c3_exact_tie_tiebreak acW3 rwW3A rwW3B psTie 0.9 _ _ hfitA hfitB (by norm_num) htb

def acC3 : AircraftState := ⟨"c3", 0.05, 0, 0, 250, none, none⟩

def rwC3A : RunwayDir := ⟨"A", 0, 0, 0, 23⟩

def rwC3B : RunwayDir := ⟨"B", -(1 / 100000000000), 0, 0, 23⟩

/-- C3 counterexample: two passing candidates whose scores are equal within
the `math.isclose` tolerance but not exactly equal. Runway "A" has the
lexicographically smaller tie-break tuple, yet the selector picks "B",
because "B" comes later with a strictly (infinitesimally) higher score and
the `score > best_score` disjunct takes precedence over the tie-break. -/
theorem c3_counterexample :
    runway_fit_score acC3 rwC3A psDist =
      some (true, 0.81 + (2 + 0.05 * latDegNM) / 60,
        ⟨0, 0, 0.05 * latDegNM, some (0.05 * latDegNM), some 1, some 1⟩) ∧
    runway_fit_score acC3 rwC3B psDist =
      some (true, 0.81 + (2 + (0.05 + 1 / 100000000000) * latDegNM) / 60,
        ⟨0, 0, (0.05 + 1 / 100000000000) * latDegNM,
          some ((0.05 + 1 / 100000000000) * latDegNM), some 1, some 1⟩) ∧
    isclose (0.81 + (2 + (0.05 + 1 / 100000000000) * latDegNM) / 60)
      (0.81 + (2 + 0.05 * latDegNM) / 60) ∧
    (0.81 + (2 + 0.05 * latDegNM) / 60) ≠
      (0.81 + (2 + (0.05 + 1 / 100000000000) * latDegNM) / 60) ∧
    tieLt (|(0:ℝ)|, 0, 0.05 * latDegNM)
      (|(0:ℝ)|, 0, (0.05 + 1 / 100000000000) * latDegNM) ∧
    (assign_runway_for_aircraft acC3 [rwC3A, rwC3B] psDist).map AssignResult.best_id =
      some (some "B") := by
  obtain ⟨hb1, hb2⟩ := latDegNM_bounds
  have hcA := cross_along_nm_centerline 0.05 rwC3A rfl rfl (by norm_num [rwC3A])
  have hcB := cross_along_nm_centerline 0.05 rwC3B rfl rfl (by norm_num [rwC3B])
  have hA0 : rwC3A.lat_thr = 0 := rfl
  have hB0 : rwC3B.lat_thr = -(1 / 100000000000) := rfl
  rw [hA0, show (0.05 - 0 : ℝ) = 0.05 by norm_num] at hcA
  rw [hB0, show (0.05 - -(1 / 100000000000) : ℝ) = 0.05 + 1 / 100000000000 by norm_num] at hcB
  have hxA : (cross_along_nm acC3.lat acC3.lon rwC3A).1 = 0 := by
    show (cross_along_nm 0.05 0 rwC3A).1 = 0
    rw [hcA]
  have hxB : (cross_along_nm acC3.lat acC3.lon rwC3B).1 = 0 := by
    show (cross_along_nm 0.05 0 rwC3B).1 = 0
    rw [hcB]
  have hdA : (cross_along_nm acC3.lat acC3.lon rwC3A).2.2 = 0.05 * latDegNM := by
    show (cross_along_nm 0.05 0 rwC3A).2.2 = _
    rw [hcA]
  have hdB : (cross_along_nm acC3.lat acC3.lon rwC3B).2.2 =
      (0.05 + 1 / 100000000000) * latDegNM := by
    show (cross_along_nm 0.05 0 rwC3B).2.2 = _
    rw [hcB]
  have hsA : (cross_along_nm acC3.lat acC3.lon rwC3A).2.1 = 0.05 * latDegNM := by
    show (cross_along_nm 0.05 0 rwC3A).2.1 = _
    rw [hcA]
  have hsB : (cross_along_nm acC3.lat acC3.lon rwC3B).2.1 =
      (0.05 + 1 / 100000000000) * latDegNM := by
    show (cross_along_nm 0.05 0 rwC3B).2.1 = _
    rw [hcB]
  have hd0A : 0 < (cross_along_nm acC3.lat acC3.lon rwC3A).2.2 := by
    rw [hdA]
    nlinarith
  have hd4A : (cross_along_nm acC3.lat acC3.lon rwC3A).2.2 < 4 := by
    rw [hdA]
    nlinarith
  have hd0B : 0 < (cross_along_nm acC3.lat acC3.lon rwC3B).2.2 := by
    rw [hdB]
    nlinarith
  have hd4B : (cross_along_nm acC3.lat acC3.lon rwC3B).2.2 < 4 := by
    rw [hdB]
    nlinarith
  have hfitA := fit_pass_dist acC3 rwC3A (ang_diff_deg_self 0) hxA hd0A hd4A
  rw [hdA, hsA] at hfitA
  have hfitB := fit_pass_dist acC3 rwC3B (ang_diff_deg_self 0) hxB hd0B hd4B
  rw [hdB, hsB] at hfitB
  have hposA : (0:ℝ) < 0.81 + (2 + 0.05 * latDegNM) / 60 := by nlinarith
  have hposB : 0.81 + (2 + 0.05 * latDegNM) / 60 <
      0.81 + (2 + (0.05 + 1 / 100000000000) * latDegNM) / 60 := by nlinarith
  refine ⟨hfitA, hfitB, ?_, ne_of_lt hposB, ?_, ?_⟩
  · unfold isclose
    rw [show 0.81 + (2 + (0.05 + 1 / 100000000000) * latDegNM) / 60 -
        (0.81 + (2 + 0.05 * latDegNM) / 60) = latDegNM / 100000000000 / 60 from by ring]
    rw [abs_of_nonneg (by nlinarith : (0:ℝ) ≤ latDegNM / 100000000000 / 60)]
    refine le_trans ?_ (mul_le_mul_of_nonneg_left (le_max_right _ _) (by norm_num))
    rw [abs_of_nonneg (le_of_lt hposA)]
    nlinarith
  · unfold tieLt
    refine Or.inr ⟨rfl, Or.inr ⟨rfl, ?_⟩⟩
    nlinarith
  · have e1 : selStep acC3 psDist ⟨[], none, 0, none⟩ rwC3A =
        some ⟨dictInsert [] rwC3A.id
            ⟨true, 0.81 + (2 + 0.05 * latDegNM) / 60,
              ⟨0, 0, 0.05 * latDegNM, some (0.05 * latDegNM), some 1, some 1⟩⟩,
          some rwC3A.id, 0.81 + (2 + 0.05 * latDegNM) / 60,
          some (|(0:ℝ)|, 0, 0.05 * latDegNM)⟩ :=
      selStep_pass_update acC3 psDist ⟨[], none, 0, none⟩ rwC3A _ _ hfitA (Or.inl hposA)
    have e2 : selStep acC3 psDist ⟨dictInsert [] rwC3A.id
            ⟨true, 0.81 + (2 + 0.05 * latDegNM) / 60,
              ⟨0, 0, 0.05 * latDegNM, some (0.05 * latDegNM), some 1, some 1⟩⟩,
          some rwC3A.id, 0.81 + (2 + 0.05 * latDegNM) / 60,
          some (|(0:ℝ)|, 0, 0.05 * latDegNM)⟩ rwC3B =
        some ⟨dictInsert (dictInsert [] rwC3A.id
              ⟨true, 0.81 + (2 + 0.05 * latDegNM) / 60,
                ⟨0, 0, 0.05 * latDegNM, some (0.05 * latDegNM), some 1, some 1⟩⟩)
            rwC3B.id
            ⟨true, 0.81 + (2 + (0.05 + 1 / 100000000000) * latDegNM) / 60,
              ⟨0, 0, (0.05 + 1 / 100000000000) * latDegNM,
                some ((0.05 + 1 / 100000000000) * latDegNM), some 1, some 1⟩⟩,
          some rwC3B.id, 0.81 + (2 + (0.05 + 1 / 100000000000) * latDegNM) / 60,
          some (|(0:ℝ)|, 0, (0.05 + 1 / 100000000000) * latDegNM)⟩ :=
      selStep_pass_update acC3 psDist _ rwC3B _ _ hfitB (Or.inl hposB)
    have hloop := (selLoop_cons acC3 psDist ⟨[], none, 0, none⟩ rwC3A [rwC3B] _ e1).trans
      ((selLoop_cons acC3 psDist _ rwC3B [] _ e2).trans rfl)
    rw [assign_eq acC3 psDist [rwC3A, rwC3B] _ hloop]
    rfl

end ClaimC3

noncomputable section ClaimC5

lemma dictInsert_fresh (m : List (String × DebugEntry)) (k : String) (v : DebugEntry)
    (h : k ∉ m.map Prod.fst) : dictInsert m k v = m ++ [(k, v)] := by
  induction m with
  | nil => rfl
  | cons a rest ih =>
    obtain ⟨k', v'⟩ := a
    simp only [List.map_cons, List.mem_cons, not_or] at h
    unfold dictInsert
    rw [if_neg (fun hc => h.1 hc.symm)]
    rw [ih h.2]
    rfl

/-- Main invariant of the selection loop: under well-formed params and
pairwise distinct runway ids, the loop succeeds, appends exactly one debug
entry per runway (the entry recorded being the fit result), and leaves the
running best untouched when no runway passes. -/
lemma selLoop_spec (ac : AircraftState) (ps : ScoreParams) (hwf : ps.wf) :
    ∀ (rs : List RunwayDir) (st : SelState),
      (st.results.map Prod.fst ++ rs.map RunwayDir.id).Nodup →
      ∃ st', selLoop ac ps st rs = some st' ∧
        st'.results.map Prod.fst = st.results.map Prod.fst ++ rs.map RunwayDir.id ∧
        (∀ e, e ∈ st.results → e ∈ st'.results) ∧
        (∀ rw ∈ rs, ∀ p s t, runway_fit_score ac rw ps = some (p, s, t) →
            (rw.id, DebugEntry.mk p s t) ∈ st'.results) ∧
        ((∀ rw ∈ rs, ∀ s t, runway_fit_score ac rw ps ≠ some (true, s, t)) →
            st'.best_id = st.best_id ∧ st'.best_score = st.best_score) := by
  intro rs
  induction rs with
  | nil =>
    intro st hnd
    exact ⟨st, rfl, by simp, fun e he => he, by simp, fun _ => ⟨rfl, rfl⟩⟩
  | cons rw rest ih =>
    intro st hnd
    obtain ⟨⟨p, s, t⟩, hfit⟩ := fit_total ac rw ps hwf
    have hfresh : rw.id ∉ st.results.map Prod.fst := by
      intro hc
      rw [List.map_cons, List.nodup_append] at hnd
      exact hnd.2.2 hc (List.mem_cons_self _ _)
    have hkeys1 : (dictInsert st.results rw.id ⟨p, s, t⟩).map Prod.fst =
        st.results.map Prod.fst ++ [rw.id] := by
      rw [dictInsert_fresh _ _ _ hfresh, List.map_append]
      rfl
    have hnd1 : ((dictInsert st.results rw.id ⟨p, s, t⟩).map Prod.fst ++
        rest.map RunwayDir.id).Nodup := by
      rw [hkeys1, List.append_assoc]
      simpa using hnd
    have hmem1 : (rw.id, DebugEntry.mk p s t) ∈ dictInsert st.results rw.id ⟨p, s, t⟩ := by
      rw [dictInsert_fresh _ _ _ hfresh]
      exact List.mem_append_right _ (List.mem_singleton_self _)
    have hpres1 : ∀ e ∈ st.results, e ∈ dictInsert st.results rw.id ⟨p, s, t⟩ := by
      intro e he
      rw [dictInsert_fresh _ _ _ hfresh]
      exact List.mem_append_left _ he
    cases p with
    | false =>
      have hstep := selStep_fail ac ps st rw s t hfit
      obtain ⟨st', hloop, hkeys, hpres, hmem, hbest⟩ :=
        ih { st with results := dictInsert st.results rw.id ⟨false, s, t⟩ } hnd1
      refine ⟨st', (selLoop_cons ac ps st rw rest _ hstep).trans hloop, ?_, ?_, ?_, ?_⟩
      · rw [hkeys]
        show (dictInsert st.results rw.id ⟨false, s, t⟩).map Prod.fst ++ _ = _
        rw [hkeys1, List.append_assoc]
        rfl
      · intro e he
        exact hpres e (hpres1 e he)
      · intro rw' hrw' p' s' t' hfit'
        rcases List.mem_cons.mp hrw' with heq | hmem'
        · subst heq
          rw [hfit] at hfit'
          simp only [Option.some.injEq, Prod.mk.injEq] at hfit'
          obtain ⟨hp', hs', ht'⟩ := hfit'
          subst hp'
          subst hs'
          subst ht'
          exact hpres _ hmem1
        · exact hmem rw' hmem' p' s' t' hfit'
      · intro hnp
        exact hbest fun rw' h' s' t' => hnp rw' (List.mem_cons_of_mem _ h') s' t'
    | true =>
      by_cases hcond : s > st.best_score ∨
          (isclose s st.best_score ∧ tieLtOpt (|t.x_nm|, t.dtrack, t.d_nm) st.best_tb)
      · have hstep := selStep_pass_update ac ps st rw s t hfit hcond
        obtain ⟨st', hloop, hkeys, hpres, hmem, -⟩ :=
          ih ⟨dictInsert st.results rw.id ⟨true, s, t⟩, some rw.id, s,
            some (|t.x_nm|, t.dtrack, t.d_nm)⟩ hnd1
        refine ⟨st', (selLoop_cons ac ps st rw rest _ hstep).trans hloop, ?_, ?_, ?_, ?_⟩
        · rw [hkeys]
          show (dictInsert st.results rw.id ⟨true, s, t⟩).map Prod.fst ++ _ = _
          rw [hkeys1, List.append_assoc]
          rfl
        · intro e he
          exact hpres e (hpres1 e he)
        · intro rw' hrw' p' s' t' hfit'
          rcases List.mem_cons.mp hrw' with heq | hmem'
          · subst heq
            rw [hfit] at hfit'
            simp only [Option.some.injEq, Prod.mk.injEq] at hfit'
            obtain ⟨hp', hs', ht'⟩ := hfit'
            subst hp'
            subst hs'
            subst ht'
            exact hpres _ hmem1
          · exact hmem rw' hmem' p' s' t' hfit'
        · intro hnp
          exact absurd hfit (hnp rw (List.mem_cons_self _ _) s t)
      · have hstep := selStep_pass_keep ac ps st rw s t hfit hcond
        obtain ⟨st', hloop, hkeys, hpres, hmem, hbest⟩ :=
          ih { st with results := dictInsert st.results rw.id ⟨true, s, t⟩ } hnd1
        refine ⟨st', (selLoop_cons ac ps st rw rest _ hstep).trans hloop, ?_, ?_, ?_, ?_⟩
        · rw [hkeys]
          show (dictInsert st.results rw.id ⟨true, s, t⟩).map Prod.fst ++ _ = _
          rw [hkeys1, List.append_assoc]
          rfl
        · intro e he
          exact hpres e (hpres1 e he)
        · intro rw' hrw' p' s' t' hfit'
          rcases List.mem_cons.mp hrw' with heq | hmem'
          · subst heq
            rw [hfit] at hfit'
            simp only [Option.some.injEq, Prod.mk.injEq] at hfit'
            obtain ⟨hp', hs', ht'⟩ := hfit'
            subst hp'
            subst hs'
            subst ht'
            exact hpres _ hmem1
          · exact hmem rw' hmem' p' s' t' hfit'
        · intro hnp
          exact absurd hfit (hnp rw (List.mem_cons_self _ _) s t)

lemma psTie_wf : psTie.wf :=
  ⟨rfl, rfl, rfl, rfl, fun h => absurd h (by simp [psTie])⟩

lemma psDist_wf : psDist.wf := ⟨rfl, rfl, rfl, rfl, fun _ => rfl⟩

/-- C5 (amended): under well-formed params, when the runway ids are pairwise
distinct the debug mapping holds exactly one entry per runway direction
evaluated (keyed in input order, each entry recording the fit result,
failing entries included with their score `0`); and if no runway direction
passes the hard gates the result has `best_id = none` and
`best_score = 0.0`. -/
theorem c5_debug_entries_and_no_pass (ac : AircraftState) (rs : List RunwayDir)
    (ps : ScoreParams) (hwf : ps.wf) (hnd : (rs.map RunwayDir.id).Nodup) :
    ∃ res, assign_runway_for_aircraft ac rs ps = some res ∧
      res.debug.map Prod.fst = rs.map RunwayDir.id ∧
      (∀ rw ∈ rs, ∀ p s t, runway_fit_score ac rw ps = some (p, s, t) →
          (rw.id, DebugEntry.mk p s t) ∈ res.debug) ∧
      ((∀ rw ∈ rs, ∀ s t, runway_fit_score ac rw ps ≠ some (true, s, t)) →
          res.best_id = none ∧ res.best_score = 0) := by
  obtain ⟨st', hloop, hkeys, -, hmem, hbest⟩ :=
    selLoop_spec ac ps hwf rs ⟨[], none, 0, none⟩ (by simpa using hnd)
  refine ⟨⟨ac.callsign, st'.best_id, st'.best_score, st'.results⟩,
    assign_eq ac ps rs st' hloop, ?_, hmem, ?_⟩
  · simpa using hkeys
  · intro hnp
    exact hbest hnp

def acW5 : AircraftState := ⟨"w5", 0.05, 0, 30, 0, none, none⟩

def rwW5a : RunwayDir := ⟨"P", 0, 0, 0, 23⟩

def rwW5b : RunwayDir := ⟨"Q", 0.01, 0, 0, 23⟩

/-- Witness for C5 (amended) at two distinct-id runways and an aircraft
whose track fails the angular gate against both. -/
theorem c5_debug_entries_and_no_pass_witness :
    ∃ res, assign_runway_for_aircraft acW5 [rwW5a, rwW5b] psTie = some res ∧
      res.debug.map Prod.fst = [rwW5a, rwW5b].map RunwayDir.id ∧
      (∀ rw ∈ [rwW5a, rwW5b], ∀ p s t, runway_fit_score acW5 rw psTie = some (p, s, t) →
          (rw.id, DebugEntry.mk p s t) ∈ res.debug) ∧
      ((∀ rw ∈ [rwW5a, rwW5b], ∀ s t, runway_fit_score acW5 rw psTie ≠ some (true, s, t)) →
          res.best_id = none ∧ res.best_score = 0) :=
  c5_debug_entries_and_no_pass acW5 [rwW5a, rwW5b] psTie psTie_wf (by decide)

def acC5 : AircraftState := ⟨"c5", 0.05, 0, 30, 0, none, none⟩

def rwC5a : RunwayDir := ⟨"R", 0, 0, 0, 23⟩

def rwC5b : RunwayDir := ⟨"R", 0.01, 0, 0, 23⟩

def tC5a : Terms :=
  ⟨ang_diff_deg acC5.track_deg rwC5a.course_deg, (cross_along_nm acC5.lat acC5.lon rwC5a).1,
    (cross_along_nm acC5.lat acC5.lon rwC5a).2.2, none, none, none⟩

def tC5b : Terms :=
  ⟨ang_diff_deg acC5.track_deg rwC5b.course_deg, (cross_along_nm acC5.lat acC5.lon rwC5b).1,
    (cross_along_nm acC5.lat acC5.lon rwC5b).2.2, none, none, none⟩

/-- C5 counterexample: two distinct runway-direction records sharing the id
"R" are both evaluated (both fits return a value), yet the debug dict ends
up with a single entry, because Python dict assignment overwrites the
existing key — so debug does not contain one entry per runway direction
evaluated. -/
theorem c5_counterexample :
    runway_fit_score acC5 rwC5a psTie = some (false, 0, tC5a) ∧
    runway_fit_score acC5 rwC5b psTie = some (false, 0, tC5b) ∧
    rwC5a.id = rwC5b.id ∧
    [rwC5a, rwC5b].length = 2 ∧
    (assign_runway_for_aircraft acC5 [rwC5a, rwC5b] psTie).map
      (fun r => r.debug.length) = some 1 := by
  have hd : ang_diff_deg (30:ℝ) 0 = 30 :=
    (@ang_diff_deg_of_small 30 0 (by norm_num) (by norm_num)).trans (by norm_num)
  have hga : ang_diff_deg acC5.track_deg rwC5a.course_deg > 20 := by
    show ang_diff_deg 30 0 > 20
    rw [hd]
    norm_num
  have hgb : ang_diff_deg acC5.track_deg rwC5b.course_deg > 20 := by
    show ang_diff_deg 30 0 > 20
    rw [hd]
    norm_num
  have hfa : runway_fit_score acC5 rwC5a psTie = some (false, 0, tC5a) :=
    fit_gate_fail acC5 rwC5a psTie 20 0.3 rfl rfl (Or.inl hga)
  have hfb : runway_fit_score acC5 rwC5b psTie = some (false, 0, tC5b) :=
    fit_gate_fail acC5 rwC5b psTie 20 0.3 rfl rfl (Or.inl hgb)
  refine ⟨hfa, hfb, rfl, rfl, ?_⟩
  have e1 : selStep acC5 psTie ⟨[], none, 0, none⟩ rwC5a =
      some ⟨dictInsert [] rwC5a.id ⟨false, 0, tC5a⟩, none, 0, none⟩ :=
    selStep_fail acC5 psTie ⟨[], none, 0, none⟩ rwC5a 0 tC5a hfa
  have e2 : selStep acC5 psTie ⟨dictInsert [] rwC5a.id ⟨false, 0, tC5a⟩, none, 0, none⟩ rwC5b =
      some ⟨dictInsert (dictInsert [] rwC5a.id ⟨false, 0, tC5a⟩) rwC5b.id ⟨false, 0, tC5b⟩,
        none, 0, none⟩ :=
    selStep_fail acC5 psTie _ rwC5b 0 tC5b hfb
  have hloop := (selLoop_cons acC5 psTie ⟨[], none, 0, none⟩ rwC5a [rwC5b] _ e1).trans
    ((selLoop_cons acC5 psTie _ rwC5b [] _ e2).trans rfl)
  rw [assign_eq acC5 psTie [rwC5a, rwC5b] _ hloop]
  rfl

end ClaimC5

end AirportRunway

namespace Testapi

/-- testapi.py `confidence_from_terms` (lines 99-106), the duplicate of the
classifier in geom.py, with `ad` and `ax` inlined as there. -/
noncomputable def confidence_from_terms (dtrack_deg x_nm : ℝ) : String :=
  if |dtrack_deg| ≤ 10 ∧ |x_nm| ≤ 0.20 then "high"
  else if |dtrack_deg| ≤ 20 ∧ |x_nm| ≤ 0.40 then "medium"
  else "low"

end Testapi

section Confidence

/-- C9: both copies of `confidence_from_terms` agree everywhere; the result
is "high" iff `|Δtrack| ≤ 10` and `|x_nm| ≤ 0.20`, otherwise "medium" iff
`|Δtrack| ≤ 20` and `|x_nm| ≤ 0.40`, otherwise "low"; and the three spec
sample points classify as "high", "medium", "low" respectively. -/
theorem c9_confidence :
    ∀ d x : ℝ,
      AirportRunway.confidence_from_terms d x = Testapi.confidence_from_terms d x ∧
      (AirportRunway.confidence_from_terms d x = "high" ↔ |d| ≤ 10 ∧ |x| ≤ 0.20) ∧
      (AirportRunway.confidence_from_terms d x = "medium" ↔
        ¬(|d| ≤ 10 ∧ |x| ≤ 0.20) ∧ (|d| ≤ 20 ∧ |x| ≤ 0.40)) ∧
      (AirportRunway.confidence_from_terms d x = "low" ↔
        ¬(|d| ≤ 10 ∧ |x| ≤ 0.20) ∧ ¬(|d| ≤ 20 ∧ |x| ≤ 0.40)) ∧
      AirportRunway.confidence_from_terms 5 0.10 = "high" ∧
      AirportRunway.confidence_from_terms 15 0.30 = "medium" ∧
      AirportRunway.confidence_from_terms 25 0.50 = "low" := by
  have hne1 : ("high" : String) ≠ "medium" := by decide
  have hne2 : ("high" : String) ≠ "low" := by decide
  have hne3 : ("medium" : String) ≠ "low" := by decide
  intro d x
  unfold AirportRunway.confidence_from_terms Testapi.confidence_from_terms
  refine ⟨rfl, ?_, ?_, ?_, ?_, ?_, ?_⟩
  · split_ifs with h1 h2 <;> simp_all
  · split_ifs with h1 h2 <;> simp_all
  · split_ifs with h1 h2 <;> simp_all
  · rw [if_pos]
    constructor
    · rw [abs_of_nonneg (by norm_num)]
      norm_num
    · rw [abs_of_nonneg (by norm_num)]
      norm_num
  · rw [if_neg, if_pos]
    · constructor
      · rw [abs_of_nonneg (by norm_num)]
        norm_num
      · rw [abs_of_nonneg (by norm_num)]
        norm_num
    · intro hc
      rcases hc with ⟨hc1, _⟩
      rw [abs_of_nonneg (by norm_num)] at hc1
      norm_num at hc1
  · rw [if_neg, if_neg]
    · intro hc
      rcases hc with ⟨hc1, _⟩
      rw [abs_of_nonneg (by norm_num)] at hc1
      norm_num at hc1
    · intro hc
      rcases hc with ⟨hc1, _⟩
      rw [abs_of_nonneg (by norm_num)] at hc1
      norm_num at hc1

end Confidence
